import Mathlib

/-!
Shallow embedding of samcm/ts-discord-status (Go).

The embedding follows the source files:
  * internal/teamspeak/state.go     — State, Channel, User
  * internal/teamspeak/teamspeak.go — GetState (the pure core, taking the raw
    query results as explicit inputs)
  * internal/discord/discord.go     — buildEmbed, buildChannelList,
    buildUserStatus, formatIdleTime, formatDuration, maybeUpdateChannelName,
    UpdateStatus, findOrCreateMessage

Modelling conventions:
  * Go time.Duration (int64 nanoseconds, here always non-negative) is Nat
    nanoseconds.  Go `int(d.Hours())` / `int(d.Minutes())` equals Nat division
    by 3_600_000_000_000 / 60_000_000_000 for every duration below 2^52 hours,
    so the float round-trip is modelled by exact Nat division.
  * Wall-clock reads (time.Now) become an explicit `now : Nat` argument;
    buildEmbed stores the clock reading in `timestamp` (Go stores its RFC3339
    rendering, which is injective per second, so distinct readings give
    distinct bytes).
  * Results of external network calls (Discord message edit / channel edit)
    become explicit Bool arguments; the calls themselves are recorded as
    `Effect` values so that frame properties ("never creates a message") can
    be stated.
  * Go `float64(a)/float64(b) >= 0.8` (resp. `>= 0.5`) on non-negative counts
    is modelled by the exact comparison `5*a ≥ 4*b` (resp. `2*a ≥ b`), which
    agrees with the float comparison for all counts below 2^50; division by
    zero yields +Inf in Go, which compares ≥ to everything, matching
    `5*a ≥ 4*0`.
-/

namespace TsDiscord

/-- internal/teamspeak/state.go: `User` (idle time in nanoseconds). -/
structure User where
  id : Int := 0
  nickname : String := ""
  channelID : Int := 0
  inputMuted : Bool := false
  outputMuted : Bool := false
  away : Bool := false
  awayMessage : String := ""
  idleTime : Nat := 0
  isRecording : Bool := false
deriving DecidableEq

/-- internal/teamspeak/state.go: `Channel`. -/
structure Channel where
  id : Int := 0
  name : String := ""
  parentID : Int := 0
  order : Int := 0
  users : List User := []
deriving DecidableEq

/-- internal/teamspeak/state.go: `State` (uptime in nanoseconds). -/
structure State where
  serverName : String := ""
  uptime : Nat := 0
  channels : List Channel := []
  totalUsers : Nat := 0
  maxClients : Nat := 0
deriving DecidableEq

/-- internal/discord/discord.go: `DisplayConfig`. -/
structure DisplayConfig where
  showEmptyChannels : Bool := false
  serverAddress : String := ""
  serverPassword : String := ""
  customFooter : String := ""
  channelNameFormat : String := ""
  thumbnailURL : String := ""
deriving DecidableEq

/-- internal/discord/discord.go: `Config`. -/
structure Config where
  token : String := ""
  channelID : String := ""
deriving DecidableEq

/-- `pat.isPrefixOf s` over character lists, written out structurally. -/
def startsWithChars : List Char → List Char → Bool
  | _, [] => true
  | [], _ :: _ => false
  | c :: cs, p :: ps => c == p && startsWithChars cs ps

/-- Go `strings.Contains s pat` over character lists. -/
def containsSub : List Char → List Char → Bool
  | [], pat => pat.isEmpty
  | c :: cs, pat => startsWithChars (c :: cs) pat || containsSub cs pat

/-- Go `strings.ToLower`, character by character (`Char.toLower` lower-cases
ASCII, enough for the "spacer" marker word). -/
def lowerChars (s : String) : String := String.mk (s.data.map Char.toLower)

/-- discord.go (buildChannelList): `strings.Contains(strings.ToLower(name), "spacer")`. -/
def isSpacer (name : String) : Bool :=
  containsSub (lowerChars name).data "spacer".data

/-- discord.go: `formatIdleTime` — `int(d.Hours())`, `int(d.Minutes()) % 60`. -/
def formatIdleTime (d : Nat) : String :=
  let hours := d / 3600000000000
  let minutes := (d / 60000000000) % 60
  if hours > 0 then toString hours ++ "h" ++ toString minutes ++ "m"
  else toString minutes ++ "m"

/-- discord.go: `formatDuration` — days/hours/minutes from `int(d.Hours())`. -/
def formatDuration (d : Nat) : String :=
  let hoursTotal := d / 3600000000000
  let days := hoursTotal / 24
  let hours := hoursTotal % 24
  let minutes := (d / 60000000000) % 60
  if days > 0 then toString days ++ "d " ++ toString hours ++ "h"
  else if hours > 0 then toString hours ++ "h " ++ toString minutes ++ "m"
  else toString minutes ++ "m"

/-- discord.go: `5*time.Minute` in nanoseconds. -/
def fiveMinutes : Nat := 5 * 60000000000

/-- discord.go: `buildUserStatus` — strings.Builder accumulation, one `if`
per marker, in source order. -/
def buildUserStatus (u : User) : String :=
  let status := ""
  let status := if u.isRecording then status ++ "🔴" else status
  let status := if u.outputMuted then status ++ "🔇"
    else if u.inputMuted then status ++ "🎙️" else status
  let status := if u.away then status ++ "💤" else status
  let status := if u.idleTime > fiveMinutes then
      status ++ " (" ++ formatIdleTime u.idleTime ++ " idle)" else status
  status

/-- discord.go (buildChannelList): a channel is rendered unless it is skipped
by the "no users and empty channels hidden" rule or by the spacer rule. -/
def keepChannel (d : DisplayConfig) (ch : Channel) : Bool :=
  (d.showEmptyChannels || !ch.users.isEmpty) && !isSpacer ch.name

/-- discord.go (buildChannelList): the header line of a rendered channel; the
user count appears only when the channel has users. -/
def channelHeader (ch : Channel) : String :=
  if ch.users.length > 0 then
    "**#" ++ ch.name ++ "** `" ++ toString ch.users.length ++ "`\n"
  else "**#" ++ ch.name ++ "**\n"

/-- discord.go (buildChannelList): one rendered line per user. -/
def userLine (u : User) : String :=
  let status := buildUserStatus u
  if status != "" then "ㅤ• " ++ u.nickname ++ " " ++ status ++ "\n"
  else "ㅤ• " ++ u.nickname ++ "\n"

/-- discord.go (buildChannelList): what the loop body appends for one
retained channel. -/
def channelBlock (ch : Channel) : String :=
  channelHeader ch ++ String.join (ch.users.map userLine) ++ "\n"

/-- Go `strings.TrimRight s "\n"`. -/
def trimTrailingNewlines (s : String) : String :=
  String.mk ((s.data.reverse.dropWhile (fun c => c == '\n')).reverse)

/-- discord.go: `buildChannelList` — the loop is the concatenation of the
blocks of the retained channels; `hasContent` is their non-emptiness. -/
def buildChannelList (d : DisplayConfig) (st : State) : String :=
  let kept := st.channels.filter (keepChannel d)
  if kept.isEmpty then "*No active channels*"
  else trimTrailingNewlines (String.join (kept.map channelBlock))

/-- discordgo.MessageEmbedField (the fields buildEmbed sets). -/
structure EmbedField where
  name : String := ""
  value : String := ""
  inline : Bool := false
deriving DecidableEq

/-- discordgo.MessageEmbedAuthor (the fields buildEmbed sets). -/
structure EmbedAuthor where
  name : String := ""
  iconURL : String := ""
deriving DecidableEq

/-- discordgo.MessageEmbed, restricted to the fields buildEmbed sets.
`timestamp` holds the wall-clock reading (Go stores its RFC3339 rendering). -/
structure MessageEmbed where
  title : String := ""
  description : String := ""
  color : Nat := 0
  timestamp : Nat := 0
  author : Option EmbedAuthor := none
  thumbnailURL : Option String := none
  fields : List EmbedField := []
  footerText : Option String := none
deriving DecidableEq

/-- discord.go (buildEmbed): color comments name the urgency classes. -/
def colorEmpty : Nat := 0x95A5A6

/-- Red — almost full. -/
def colorCritical : Nat := 0xE74C3C

/-- Orange — busy. -/
def colorBusy : Nat := 0xF39C12

/-- Green — available. -/
def colorNominal : Nat := 0x2ECC71

/-- discord.go (buildEmbed): the `switch` on `capacityPercent`, with the float
comparisons `cap ≥ 0.8` / `cap ≥ 0.5` rendered exactly (see header note). -/
def occupancyColor (totalUsers maxClients : Nat) : Nat :=
  if totalUsers == 0 then colorEmpty
  else if 5 * totalUsers ≥ 4 * maxClients then colorCritical
  else if 2 * totalUsers ≥ maxClients then colorBusy
  else colorNominal

/-- discord.go: `buildEmbed` (first argument of the service: its display
config; `now` is the time.Now() reading). -/
def buildEmbed (d : DisplayConfig) (state : Option State) (now : Nat) : MessageEmbed :=
  let embed : MessageEmbed :=
    { color := 0x2B5B84
      timestamp := now
      author := some { name := "TeamSpeak Server", iconURL := "https://i.imgur.com/pK2qRkC.png" } }
  match state with
  | none =>
    { embed with description := "```\n⏳ Connecting to server...\n```", color := 0xFAA61A }
  | some st =>
    let embed := { embed with title := st.serverName }
    let embed := if d.thumbnailURL != "" then
        { embed with thumbnailURL := some d.thumbnailURL } else embed
    let embed := { embed with color := occupancyColor st.totalUsers st.maxClients }
    let fields : List EmbedField :=
      [ { name := "👥 Online"
          value := "**" ++ toString st.totalUsers ++ "** / " ++ toString st.maxClients
          inline := true }
      , { name := "⏱️ Uptime", value := formatDuration st.uptime, inline := true } ]
    let fields := if d.serverAddress != "" then
        fields ++ [ { name := "🔗 Connect"
                      value := "`" ++ d.serverAddress ++ "`"
                        ++ (if d.serverPassword != "" then
                              "\nPass: `" ++ d.serverPassword ++ "`" else "")
                      inline := true } ]
      else fields
    let channelContent := buildChannelList d st
    let fields := if channelContent != "" then
        fields ++ [ { name := "📢 Channels", value := channelContent, inline := false } ]
      else fields
    let footerText := if d.customFooter != "" then d.customFooter else "Last updated"
    { embed with fields := fields, footerText := some footerText }

/-- discord.go (service struct): `lastUserCount` / `lastChannelRename`.
Counts are non-negative; the rename time is a clock reading in nanoseconds. -/
structure RenameState where
  lastUserCount : Nat := 0
  lastChannelRename : Nat := 0
deriving DecidableEq

/-- discord.go (maybeUpdateChannelName): the three `strings.ReplaceAll`
substitutions into the configured format. -/
def channelNameFrom (d : DisplayConfig) (st : State) : String :=
  ((d.channelNameFormat.replace "{online}" (toString st.totalUsers)).replace
      "{max}" (toString st.maxClients)).replace "{server}" st.serverName

/-- discord.go: `maybeUpdateChannelName`.  `now` is the time.Now() reading
(`time.Since x = now - x`); `editOk` is the outcome of the external
ChannelEdit call.  Returns the new RenameState and, when ChannelEdit was
invoked, the name it was invoked with. -/
def maybeUpdateChannelName (d : DisplayConfig) (rs : RenameState) (st : State)
    (now : Nat) (editOk : Bool) : RenameState × Option String :=
  if st.totalUsers == rs.lastUserCount then (rs, none)
  else if now - rs.lastChannelRename < fiveMinutes then (rs, none)
  else
    let newName := channelNameFrom d st
    if editOk then
      ({ lastUserCount := st.totalUsers, lastChannelRename := now }, some newName)
    else (rs, some newName)

/-- External Discord calls a tick can make, recorded for frame reasoning. -/
inductive Effect where
  | editMessage (channelID messageID : String) (embed : MessageEmbed)
  | createMessage (channelID : String) (embed : MessageEmbed)
  | renameChannel (channelID name : String)
deriving DecidableEq

/-- discord.go (service struct): the mutable service fields UpdateStatus
touches (`session != nil`, `messageID`, rename bookkeeping). -/
structure SvcState where
  connected : Bool := false
  messageID : String := ""
  rename : RenameState := {}
deriving DecidableEq

/-- discord.go: `UpdateStatus`.  `editOk` / `renameEditOk` are the outcomes of
the external ChannelMessageEditEmbed / ChannelEdit calls.  Returns the new
service state, whether the tick succeeded (Go: `err == nil`), and the external
calls made. -/
def UpdateStatus (cfg : Config) (d : DisplayConfig) (svc : SvcState)
    (state : Option State) (now : Nat) (editOk renameEditOk : Bool) :
    SvcState × Bool × List Effect :=
  if !svc.connected then (svc, false, [])
  else
    let embed := buildEmbed d state now
    let effects := [Effect.editMessage cfg.channelID svc.messageID embed]
    if !editOk then (svc, false, effects)
    else
      match state with
      | some st =>
        if d.channelNameFormat != "" then
          let r := maybeUpdateChannelName d svc.rename st now renameEditOk
          let effects := effects ++ (match r.2 with
            | some name => [Effect.renameChannel cfg.channelID name]
            | none => [])
          ({ svc with rename := r.1 }, true, effects)
        else (svc, true, effects)
      | none => (svc, true, effects)

/-- discordgo.Message, restricted to what findOrCreateMessage inspects
(`embeds` is `len(msg.Embeds)`). -/
structure DiscordMessage where
  id : String := ""
  authorID : String := ""
  embeds : Nat := 0
deriving DecidableEq

/-- discord.go (findOrCreateMessage): the adoption condition
`msg.Author.ID == botID && len(msg.Embeds) > 0`. -/
def isOwnStatusMessage (botID : String) (m : DiscordMessage) : Bool :=
  m.authorID == botID && decide (0 < m.embeds)

/-- discord.go (findOrCreateMessage): the search loop over the fetched
messages (newest first), returning the first match's id. -/
def findOwnMessage (botID : String) : List DiscordMessage → Option String
  | [] => none
  | m :: rest =>
    if isOwnStatusMessage botID m then some m.id else findOwnMessage botID rest

/-- Result of findOrCreateMessage: the messageID recorded, and for the create
branch the embed the new message was seeded with. -/
inductive FindOutcome where
  | adopted (id : String)
  | created (id : String) (seed : MessageEmbed)
deriving DecidableEq

/-- discord.go: `findOrCreateMessage`.  `messages` is what
`ChannelMessages(channelID, 50, ...)` returned (the most recent 50, newest
first); `newID` is the id Discord assigns when a message is created. -/
def findOrCreateMessage (d : DisplayConfig) (botID : String)
    (messages : List DiscordMessage) (now : Nat) (newID : String) : FindOutcome :=
  match findOwnMessage botID messages with
  | some id => .adopted id
  | none => .created newID (buildEmbed d none now)

/-- go-ts3 channel record, restricted to what GetState reads. -/
structure RawChannel where
  id : Int := 0
  channelName : String := ""
  parentID : Int := 0
  channelOrder : Int := 0
deriving DecidableEq

/-- go-ts3 client record, restricted to what GetState reads.  `ctype` is the
wire field `Type` (1 = ServerQuery client); the Option fields are the
nil-able extension pointers, `hasVoice` / `hasTimes` the presence of the
OnlineClientVoice / OnlineClientTimes extensions; idle time in milliseconds. -/
structure RawClient where
  id : Int := 0
  nickname : String := ""
  channelID : Int := 0
  ctype : Int := 0
  away : Bool := false
  awayMessage : String := ""
  hasVoice : Bool := false
  inputMuted : Option Bool := none
  outputMuted : Option Bool := none
  isRecording : Option Bool := none
  hasTimes : Bool := false
  idleTimeMs : Option Nat := none
deriving DecidableEq

/-- teamspeak.go (GetState): construction of a `User` from a client record,
with nil extensions leaving the zero values. -/
def mkUser (cl : RawClient) : User :=
  { id := cl.id
    nickname := cl.nickname
    channelID := cl.channelID
    away := cl.away
    awayMessage := cl.awayMessage
    inputMuted := if cl.hasVoice then cl.inputMuted.getD false else false
    outputMuted := if cl.hasVoice then cl.outputMuted.getD false else false
    isRecording := if cl.hasVoice then cl.isRecording.getD false else false
    idleTime := if cl.hasTimes then (cl.idleTimeMs.getD 0) * 1000000 else 0 }

/-- teamspeak.go (GetState): `channelMap` after the first loop — domain is
the set of channel ids, every entry an empty user list (duplicate ids
overwrite with another empty list). -/
def initialMap (channels : List RawChannel) : Int → Option (List User) :=
  fun cid => if channels.any (fun ch => ch.id == cid) then some [] else none

/-- teamspeak.go (GetState): the client-assignment loop.  ServerQuery clients
(`Type == 1`) are skipped; every other client increments the total and is
appended to its channel's map entry when the lookup succeeds. -/
def assignClients : List RawClient → (Int → Option (List User)) → Nat →
    (Int → Option (List User)) × Nat
  | [], m, total => (m, total)
  | cl :: rest, m, total =>
    if cl.ctype == 1 then assignClients rest m total
    else
      let u := mkUser cl
      let m' := fun cid =>
        if cl.channelID == cid then (m cid).map (fun l => l ++ [u]) else m cid
      assignClients rest m' (total + 1)

/-- teamspeak.go: the pure core of `GetState`, taking the three query results
(server info, channel list, client list) as inputs.  Go multiplies the
server uptime (seconds) into a Duration. -/
def GetState (serverName : String) (uptimeSec : Nat) (maxClients : Nat)
    (channels : List RawChannel) (clients : List RawClient) : State :=
  let r := assignClients clients (initialMap channels) 0
  let stateChannels := channels.map (fun ch =>
    { id := ch.id
      name := ch.channelName
      parentID := ch.parentID
      order := ch.channelOrder
      users := (r.1 ch.id).getD [] : Channel })
  { serverName := serverName
    uptime := uptimeSec * 1000000000
    channels := stateChannels
    totalUsers := r.2
    maxClients := maxClients }

/-! ### Spec-side status tokens (for the amended C2)

The four tokens of the user-status suffix, as the (amended) claim describes
them: recording marker, exactly one of the mute markers with output-muted
taking precedence, away marker (no away message), idle marker when the idle
duration exceeds 5 minutes. -/

/-- Recording marker of the status suffix. -/
def specRecordingToken (u : User) : String := if u.isRecording then "🔴" else ""

/-- Mute marker: output-muted takes precedence over input-muted. -/
def specMuteToken (u : User) : String :=
  if u.outputMuted then "🔇" else if u.inputMuted then "🎙️" else ""

/-- Away marker (the away message is not rendered). -/
def specAwayToken (u : User) : String := if u.away then "💤" else ""

/-- Idle marker, present exactly when the idle duration exceeds 5 minutes. -/
def specIdleToken (u : User) : String :=
  if u.idleTime > fiveMinutes then " (" ++ formatIdleTime u.idleTime ++ " idle)" else ""

/-- An embed with its timestamp field blanked. -/
def clearTimestamp (e : MessageEmbed) : MessageEmbed := { e with timestamp := 0 }

/-- C1 counterexample: buildEmbed reads the wall clock into the embed's
timestamp, so two calls with equal input (here the nil "connecting" input)
made at distinct clock readings yield different output. -/
theorem buildEmbed_clock_dependent :
    buildEmbed {} none 0 ≠ buildEmbed {} none 1 := by decide

/-- C1 (amended): buildEmbed is deterministic apart from the wall-clock
timestamp — for every display config and every input state (including the nil
"connecting" input), two calls at any two clock readings agree on every field
other than the timestamp; in particular equal clock readings give
byte-identical output. -/
theorem buildEmbed_deterministic_up_to_timestamp (d : DisplayConfig)
    (st : Option State) (t t' : Nat) :
    clearTimestamp (buildEmbed d st t) = clearTimestamp (buildEmbed d st t') := by
  cases st with
  | none => rfl
  | some s =>
    simp only [buildEmbed, clearTimestamp]
    split <;> split <;> split <;> rfl

/-- C2 counterexample: for an away user with away message "brb" the rendered
status suffix is exactly "💤" — the away message never appears in it (the
code ignores `User.AwayMessage`). -/
theorem away_message_not_rendered :
    buildUserStatus { away := true, awayMessage := "brb" } = "💤"
    ∧ containsSub (buildUserStatus { away := true, awayMessage := "brb" }).data
        "brb".data = false := by
  exact ⟨rfl, rfl⟩

/-- C2 (amended): the status suffix is the concatenation, in fixed order, of
the recording marker, exactly one mute marker (output-muted taking precedence
over input-muted), the away marker (which does not carry the away message),
and the idle marker present exactly when idle time exceeds 5 minutes. -/
theorem user_status_token_order (u : User) :
    buildUserStatus u =
      specRecordingToken u ++ specMuteToken u ++ specAwayToken u ++ specIdleToken u := by
  obtain ⟨uid, nick, cid, im, om, aw, am, it, ir⟩ := u
  simp only [buildUserStatus, specRecordingToken, specMuteToken, specAwayToken, specIdleToken]
  cases ir <;> cases om <;> cases im <;> cases aw <;>
    by_cases h : it > fiveMinutes <;>
    simp [h, String.append_assoc, String.empty_append, String.append_empty] <;>
    ((conv_rhs => rw [← String.append_assoc]); simp)

/-- Removing an element the filter rejects does not change the filter. -/
theorem filter_erase_of_not_kept {α : Type} [DecidableEq α] (p : α → Bool) (x : α)
    (hx : p x = false) : ∀ l : List α, l.filter p = (l.erase x).filter p := by
  intro l
  induction l with
  | nil => rfl
  | cons a t ih =>
    by_cases hax : a = x
    · subst hax
      simp [List.erase_cons, List.filter_cons, hx]
    · simp [List.erase_cons, hax, List.filter_cons, ih]

/-- C3 counterexample: with "show empty channels" enabled, a channel with
zero users is rendered, but its header line carries no user count at all —
the projected content contains no digit 0. -/
theorem empty_channel_header_lacks_count :
    buildChannelList { showEmptyChannels := true } { channels := [{ name := "Lobby" }] }
        = "**#Lobby**"
    ∧ containsSub (buildChannelList { showEmptyChannels := true }
        { channels := [{ name := "Lobby" }] }).data "0".data = false := by
  exact ⟨by decide, by decide⟩

/-- C3 (amended): with "show empty channels" disabled, a channel with zero
users is omitted from the projected content (removing it changes nothing);
with the option enabled, a zero-user non-spacer channel is retained, and its
header line is the channel name alone, with no user count. -/
theorem empty_channel_rendering (d : DisplayConfig) (st : State) (ch : Channel)
    (hu : ch.users = []) :
    (d.showEmptyChannels = false →
        buildChannelList d st =
          buildChannelList d { st with channels := st.channels.erase ch })
    ∧ (d.showEmptyChannels = true → isSpacer ch.name = false →
        keepChannel d ch = true
        ∧ channelHeader ch = "**#" ++ ch.name ++ "**\n") := by
  constructor
  · intro hd
    have hk : keepChannel d ch = false := by
      simp [keepChannel, hd, hu]
    simp only [buildChannelList]
    rw [← filter_erase_of_not_kept (keepChannel d) ch hk]
  · intro hd hsp
    constructor
    · simp [keepChannel, hd, hsp]
    · simp [channelHeader, hu]

/-- Witness for `empty_channel_rendering` at a concrete input. -/
theorem empty_channel_rendering_witness :
    buildChannelList {} { channels := [{ name := "Lobby" }] } =
      buildChannelList {} { channels := ([{ name := "Lobby" }] : List Channel).erase { name := "Lobby" } } :=
  (empty_channel_rendering {} { channels := [{ name := "Lobby" }] } { name := "Lobby" } rfl).1 rfl

/-- C4: the rename gate fires exactly when the occupied count differs from
the last applied count and at least five minutes have elapsed since the last
applied rename; an unchanged count never renames, and a skipped candidate
leaves the rename state untouched. -/
theorem rename_gate_fires_iff (d : DisplayConfig) (rs : RenameState) (st : State)
    (now : Nat) (editOk : Bool) :
    (st.totalUsers = rs.lastUserCount →
      maybeUpdateChannelName d rs st now editOk = (rs, none))
    ∧ (st.totalUsers ≠ rs.lastUserCount →
        ((maybeUpdateChannelName d rs st now editOk).2.isSome = true ↔
          fiveMinutes ≤ now - rs.lastChannelRename))
    ∧ ((maybeUpdateChannelName d rs st now editOk).2 = none →
        (maybeUpdateChannelName d rs st now editOk).1 = rs) := by
  refine ⟨fun h1 => ?_, fun h1 => ?_, fun h => ?_⟩
  · simp [maybeUpdateChannelName, h1]
  · by_cases h2 : now - rs.lastChannelRename < fiveMinutes
    · simp [maybeUpdateChannelName, h1, h2, Nat.not_le.mpr h2]
    · cases editOk <;> simp [maybeUpdateChannelName, h1, h2, Nat.not_lt.mp h2]
  · revert h
    unfold maybeUpdateChannelName
    by_cases h1 : st.totalUsers = rs.lastUserCount
    · simp [h1]
    · by_cases h2 : now - rs.lastChannelRename < fiveMinutes
      · simp [h1, h2]
      · cases editOk <;> simp [h1, h2]

/-- Witness for `rename_gate_fires_iff` at a concrete input: count 5 → 7 with
exactly five minutes elapsed does fire the gate. -/
theorem rename_gate_fires_iff_witness :
    (maybeUpdateChannelName {} { lastUserCount := 5, lastChannelRename := 0 }
        { totalUsers := 7 } fiveMinutes true).2.isSome = true :=
  ((rename_gate_fires_iff {} { lastUserCount := 5, lastChannelRename := 0 }
      { totalUsers := 7 } fiveMinutes true).2.1 (by decide)).mpr (by decide)

/-- C5: on a tick whose message edit succeeded and whose rename gate fires,
a failing ChannelEdit leaves the rename state untouched and the tick still
succeeds; a succeeding ChannelEdit updates the rename state to the new count
and the current time (and the tick succeeds as well). -/
theorem rename_failure_preserves_state (cfg : Config) (d : DisplayConfig)
    (svc : SvcState) (st : State) (now : Nat) (renameEditOk : Bool)
    (hc : svc.connected = true) (hf : d.channelNameFormat ≠ "")
    (hcount : st.totalUsers ≠ svc.rename.lastUserCount)
    (htime : fiveMinutes ≤ now - svc.rename.lastChannelRename) :
    ((UpdateStatus cfg d svc (some st) now true renameEditOk).2.1 = true)
    ∧ (renameEditOk = false →
        (UpdateStatus cfg d svc (some st) now true renameEditOk).1.rename = svc.rename)
    ∧ (renameEditOk = true →
        (UpdateStatus cfg d svc (some st) now true renameEditOk).1.rename =
          { lastUserCount := st.totalUsers, lastChannelRename := now }) := by
  cases renameEditOk <;>
    simp [UpdateStatus, maybeUpdateChannelName, hc, hf, hcount, Nat.not_lt.mpr htime,
      bne_iff_ne]

/-- Witness for `rename_failure_preserves_state` at a concrete input. -/
theorem rename_failure_preserves_state_witness :
    (UpdateStatus {} { channelNameFormat := "TS {online}" }
        { connected := true } (some { totalUsers := 7 }) fiveMinutes true false).1.rename
      = ({ connected := true } : SvcState).rename :=
  (rename_failure_preserves_state {} { channelNameFormat := "TS {online}" }
      { connected := true } { totalUsers := 7 } fiveMinutes false rfl (by decide)
      (by decide) (by decide)).2.1 rfl

/-- True of effects that are not message creations. -/
def isCreateEffect : Effect → Bool
  | .createMessage _ _ => true
  | _ => false

/-- True of effects whose message-edit target (if any) is `mid`. -/
def editsTarget (mid : String) : Effect → Bool
  | .editMessage _ m _ => m == mid
  | _ => true

/-- C8: every UpdateStatus tick leaves the stored artifact identity
unchanged, performs no message creation, targets every message edit at the
stored artifact, does edit that artifact whenever the service is connected,
and surfaces a failed edit as the tick's result with the whole service state
unchanged. -/
theorem update_edits_single_artifact (cfg : Config) (d : DisplayConfig)
    (svc : SvcState) (state : Option State) (now : Nat) (editOk renameEditOk : Bool) :
    ((UpdateStatus cfg d svc state now editOk renameEditOk).1.messageID = svc.messageID)
    ∧ ((UpdateStatus cfg d svc state now editOk renameEditOk).2.2.all
        (fun e => !isCreateEffect e) = true)
    ∧ ((UpdateStatus cfg d svc state now editOk renameEditOk).2.2.all
        (editsTarget svc.messageID) = true)
    ∧ (svc.connected = true →
        Effect.editMessage cfg.channelID svc.messageID (buildEmbed d state now)
          ∈ (UpdateStatus cfg d svc state now editOk renameEditOk).2.2)
    ∧ (svc.connected = true → editOk = false →
        (UpdateStatus cfg d svc state now editOk renameEditOk).2.1 = false
        ∧ (UpdateStatus cfg d svc state now editOk renameEditOk).1 = svc) := by
  unfold UpdateStatus
  cases hc : svc.connected <;> cases editOk <;> cases state <;>
    simp [hc, isCreateEffect, editsTarget]
  by_cases hf : d.channelNameFormat = ""
  · simp [hf, isCreateEffect, editsTarget]
  · rcases hm : (maybeUpdateChannelName d svc.rename _ now renameEditOk).2 with _ | name <;>
      simp [hf, hm, isCreateEffect, editsTarget]

/-- Witness for `update_edits_single_artifact` at a concrete input. -/
theorem update_edits_single_artifact_witness :
    (UpdateStatus { channelID := "C" } {} { connected := true, messageID := "M" }
        none 0 false false).2.1 = false :=
  ((update_edits_single_artifact { channelID := "C" } {}
      { connected := true, messageID := "M" } none 0 false false).2.2.2.2 rfl rfl).1

/-- The search loop returns the id of the first message passing the adoption
condition, i.e. the head of the filtered list. -/
theorem findOwnMessage_eq_filter_head (botID : String) (l : List DiscordMessage) :
    findOwnMessage botID l =
      ((l.filter (isOwnStatusMessage botID)).head?).map DiscordMessage.id := by
  induction l with
  | nil => rfl
  | cons m rest ih =>
    by_cases h : isOwnStatusMessage botID m
    · simp [findOwnMessage, List.filter_cons, h]
    · simp only [Bool.not_eq_true] at h
      simp [findOwnMessage, List.filter_cons, h, ih]

/-- C7: when exactly one of the fetched messages is authored by this bot and
carries embeds, findOrCreateMessage adopts that message's id and creates
nothing; when none matches, it creates exactly one message seeded with the
"connecting" embed and records the new id. -/
theorem adoption_unique (d : DisplayConfig) (botID : String)
    (messages : List DiscordMessage) (now : Nat) (newID : String) :
    (∀ m, messages.filter (isOwnStatusMessage botID) = [m] →
        findOrCreateMessage d botID messages now newID = .adopted m.id)
    ∧ (messages.filter (isOwnStatusMessage botID) = [] →
        findOrCreateMessage d botID messages now newID =
          .created newID (buildEmbed d none now)) := by
  constructor
  · intro m hm
    simp [findOrCreateMessage, findOwnMessage_eq_filter_head, hm]
  · intro hnone
    simp [findOrCreateMessage, findOwnMessage_eq_filter_head, hnone]

/-- Witness for `adoption_unique` at a concrete input: one matching message
among three is adopted. -/
theorem adoption_unique_witness :
    findOrCreateMessage {} "bot"
        [ { id := "m1", authorID := "alice", embeds := 1 }
        , { id := "m2", authorID := "bot", embeds := 2 }
        , { id := "m3", authorID := "bot", embeds := 0 } ] 0 "new"
      = .adopted "m2" :=
  (adoption_unique {} "bot"
      [ { id := "m1", authorID := "alice", embeds := 1 }
      , { id := "m2", authorID := "bot", embeds := 2 }
      , { id := "m3", authorID := "bot", embeds := 0 } ] 0 "new").1
    { id := "m2", authorID := "bot", embeds := 2 } (by decide)

/-- `4/5 ≤ a/b` over ℚ as a comparison of cross-products (for 0 < b). -/
theorem ratio_ge_iff (a b p q : Nat) (hb : 0 < b) (hq : 0 < q) :
    ((p : ℚ) / (q : ℚ) ≤ (a : ℚ) / (b : ℚ)) ↔ p * b ≤ a * q := by
  rw [div_le_div_iff₀ (by exact_mod_cast hq) (by exact_mod_cast hb)]
  exact_mod_cast Iff.rfl

/-- C6: the embed color of a present snapshot is the occupancy
classification, and that classification follows the occupied/capacity ratio:
zero occupancy is the empty class; otherwise, with positive capacity, ratio
≥ 4/5 critical, otherwise ratio ≥ 1/2 busy, otherwise nominal; zero capacity
with positive occupancy is critical (no division error occurs). -/
theorem urgency_classification (d : DisplayConfig) (st : State) (now : Nat) :
    ((buildEmbed d (some st) now).color = occupancyColor st.totalUsers st.maxClients)
    ∧ (st.totalUsers = 0 → occupancyColor st.totalUsers st.maxClients = colorEmpty)
    ∧ (st.totalUsers ≠ 0 → 0 < st.maxClients →
        ((4 : ℚ) / 5 ≤ (st.totalUsers : ℚ) / (st.maxClients : ℚ) →
            occupancyColor st.totalUsers st.maxClients = colorCritical)
        ∧ ((st.totalUsers : ℚ) / (st.maxClients : ℚ) < (4 : ℚ) / 5 →
            (1 : ℚ) / 2 ≤ (st.totalUsers : ℚ) / (st.maxClients : ℚ) →
            occupancyColor st.totalUsers st.maxClients = colorBusy)
        ∧ ((st.totalUsers : ℚ) / (st.maxClients : ℚ) < (1 : ℚ) / 2 →
            occupancyColor st.totalUsers st.maxClients = colorNominal))
    ∧ (st.maxClients = 0 → st.totalUsers ≠ 0 →
        occupancyColor st.totalUsers st.maxClients = colorCritical) := by
  refine ⟨?_, fun h0 => by simp [occupancyColor, h0], fun h0 hmc => ⟨?_, ?_, ?_⟩,
    fun hmc h0 => by simp [occupancyColor, h0, hmc]⟩
  · simp only [buildEmbed]
  · intro hr
    have h45 : 4 * st.maxClients ≤ st.totalUsers * 5 :=
      (ratio_ge_iff st.totalUsers st.maxClients 4 5 hmc (by norm_num)).mp hr
    simp only [occupancyColor]
    rw [if_neg (by simpa using h0), if_pos (by omega)]
  · intro hr1 hr2
    have h45 : ¬(4 * st.maxClients ≤ st.totalUsers * 5) := by
      intro hc
      exact absurd ((ratio_ge_iff st.totalUsers st.maxClients 4 5 hmc (by norm_num)).mpr hc)
        (not_le.mpr hr1)
    have h12 : 1 * st.maxClients ≤ st.totalUsers * 2 :=
      (ratio_ge_iff st.totalUsers st.maxClients 1 2 hmc (by norm_num)).mp hr2
    simp only [occupancyColor]
    rw [if_neg (by simpa using h0), if_neg (by omega), if_pos (by omega)]
  · intro hr
    have h12 : ¬(1 * st.maxClients ≤ st.totalUsers * 2) := by
      intro hc
      exact absurd ((ratio_ge_iff st.totalUsers st.maxClients 1 2 hmc (by norm_num)).mpr hc)
        (not_le.mpr hr)
    simp only [occupancyColor]
    rw [if_neg (by simpa using h0), if_neg (by omega), if_neg (by omega)]

/-- Witness for `urgency_classification` at the spec's own example inputs. -/
theorem urgency_classification_witness :
    occupancyColor 8 10 = colorCritical ∧ occupancyColor 5 10 = colorBusy
    ∧ occupancyColor 1 10 = colorNominal ∧ occupancyColor 0 10 = colorEmpty :=
  ⟨((urgency_classification {} { totalUsers := 8, maxClients := 10 } 0).2.2.1
      (by decide) (by decide)).1 (by norm_num),
   ((urgency_classification {} { totalUsers := 5, maxClients := 10 } 0).2.2.1
      (by decide) (by decide)).2.1 (by norm_num) (by norm_num),
   ((urgency_classification {} { totalUsers := 1, maxClients := 10 } 0).2.2.1
      (by decide) (by decide)).2.2 (by norm_num),
   (urgency_classification {} { totalUsers := 0, maxClients := 10 } 0).2.1 rfl⟩

/-- `==` on Int is symmetric. -/
theorem int_beq_comm (a b : Int) : (a == b) = (b == a) := by
  by_cases h : a = b
  · simp [h]
  · simp [beq_iff_eq, h, Ne.symm h]

/-- The assignment loop counts exactly the non-ServerQuery clients. -/
theorem assignClients_total (clients : List RawClient)
    (m : Int → Option (List User)) (total : Nat) :
    (assignClients clients m total).2 =
      total + clients.countP (fun c => !(c.ctype == 1)) := by
  induction clients generalizing m total with
  | nil => simp [assignClients]
  | cons c cs ih =>
    by_cases h : c.ctype = 1
    · simp [assignClients, h, List.countP_cons, ih]
    · simp [assignClients, h, List.countP_cons, ih]
      omega

/-- The assignment loop appends, to every map entry, exactly the users made
from the counted clients pointing at that channel id, in order. -/
theorem assignClients_map (clients : List RawClient)
    (m : Int → Option (List User)) (total : Nat) (cid : Int) :
    (assignClients clients m total).1 cid =
      (m cid).map (fun l => l ++ (clients.filter
        (fun c => !(c.ctype == 1) && c.channelID == cid)).map mkUser) := by
  induction clients generalizing m total with
  | nil => cases hm : m cid <;> simp [assignClients, hm]
  | cons c cs ih =>
    by_cases h : c.ctype = 1
    · simp [assignClients, h, List.filter_cons, ih]
    · simp only [assignClients, beq_iff_eq, h, if_false, reduceIte]
      rw [ih]
      by_cases hcid : c.channelID = cid
      · cases hm : m cid <;>
          simp [hm, hcid, List.filter_cons, h, List.append_assoc]
      · cases hm : m cid <;>
          simp [hm, hcid, List.filter_cons, h]

/-- Filtering out the ServerQuery clients beforehand does not change the
assignment loop's result. -/
theorem assignClients_filter (clients : List RawClient)
    (m : Int → Option (List User)) (total : Nat) :
    assignClients (clients.filter (fun c => !(c.ctype == 1))) m total =
      assignClients clients m total := by
  induction clients generalizing m total with
  | nil => rfl
  | cons c cs ih =>
    by_cases h : c.ctype = 1
    · simp [List.filter_cons, h, assignClients, ih]
    · simp [List.filter_cons, h, assignClients, ih]

/-- Sum of a pointwise sum of two Nat-valued maps. -/
theorem sum_map_add {α : Type} (l : List α) (f g : α → Nat) :
    (l.map (fun x => f x + g x)).sum = (l.map f).sum + (l.map g).sum := by
  induction l with
  | nil => rfl
  | cons a t ih =>
    simp [List.map_cons, List.sum_cons, ih]
    omega

/-- Summing an indicator over a list counts the satisfying elements. -/
theorem sum_map_indicator {α : Type} (l : List α) (q : α → Bool) :
    (l.map (fun x => if q x then 1 else 0)).sum = l.countP q := by
  induction l with
  | nil => rfl
  | cons a t ih =>
    by_cases h : q a
    · simp [List.countP_cons, h, ih]
      omega
    · simp [List.countP_cons, h, ih]

/-- Partition of the counted clients: every counted client is counted either
under the (unique) channel its id resolves to, or as an orphan. -/
theorem countP_partition_by_channel (channels : List RawChannel)
    (clients : List RawClient)
    (hnd : (channels.map (fun ch => ch.id)).Nodup) :
    (channels.map (fun ch => clients.countP
        (fun c => !(c.ctype == 1) && c.channelID == ch.id))).sum
      + clients.countP (fun c => !(c.ctype == 1)
          && !(channels.any (fun ch => ch.id == c.channelID)))
      = clients.countP (fun c => !(c.ctype == 1)) := by
  induction clients with
  | nil => simp
  | cons c cs ih =>
    have hmapsplit : (channels.map (fun ch => (c :: cs).countP
        (fun x => !(x.ctype == 1) && x.channelID == ch.id))).sum
        = (channels.map (fun ch => cs.countP
            (fun x => !(x.ctype == 1) && x.channelID == ch.id))).sum
          + (channels.map (fun ch =>
              if !(c.ctype == 1) && c.channelID == ch.id then 1 else 0)).sum := by
      rw [← sum_map_add]
      refine congrArg _ (List.map_congr_left fun ch _ => ?_)
      rw [List.countP_cons]
    rw [List.countP_cons, List.countP_cons, hmapsplit, sum_map_indicator]
    by_cases hc : c.ctype = 1
    · have hz : channels.countP (fun ch => !(c.ctype == 1) && c.channelID == ch.id) = 0 := by
        rw [List.countP_eq_zero]
        intro ch _
        simp [hc]
      rw [hz]
      simp [hc]
      omega
    · have hone : channels.countP (fun ch => !(c.ctype == 1) && c.channelID == ch.id)
          = (channels.map (fun ch => ch.id)).countP (fun i => c.channelID == i) := by
        rw [List.countP_map]
        refine List.countP_congr fun ch _ => ?_
        simp [hc, Function.comp]
      rw [hone]
      by_cases hmem : c.channelID ∈ channels.map (fun ch => ch.id)
      · have h1 : (channels.map (fun ch => ch.id)).countP (fun i => c.channelID == i) = 1 := by
          have hcount : (channels.map (fun ch => ch.id)).countP (fun i => i == c.channelID) = 1 :=
            List.count_eq_one_of_mem hnd hmem
          rw [← hcount]
          exact List.countP_congr fun i _ => by rw [int_beq_comm]
        have hany : channels.any (fun ch => ch.id == c.channelID) = true := by
          rw [List.any_eq_true]
          rcases List.mem_map.mp hmem with ⟨ch, hch, hid⟩
          exact ⟨ch, hch, by simp [hid]⟩
        rw [h1]
        simp [hc, hany]
        omega
      · have h0 : (channels.map (fun ch => ch.id)).countP (fun i => c.channelID == i) = 0 := by
          rw [List.countP_eq_zero]
          intro i hi
          simp only [beq_iff_eq]
          intro hh
          exact hmem (hh ▸ hi)
        have hany : channels.any (fun ch => ch.id == c.channelID) = false := by
          rw [Bool.eq_false_iff]
          intro hh
          rcases List.any_eq_true.mp hh with ⟨ch, hch, hid⟩
          exact hmem (List.mem_map.mpr ⟨ch, hch, by simpa [beq_iff_eq] using hid⟩)
        rw [h0]
        simp [hc, hany]
        omega

/-- The users GetState records for a channel are exactly the counted clients
pointing at that channel's id, in client-list order. -/
theorem GetState_channel_users (channels : List RawChannel)
    (clients : List RawClient) (rch : RawChannel) (hrch : rch ∈ channels) :
    ((assignClients clients (initialMap channels) 0).1 rch.id).getD [] =
      (clients.filter (fun c => !(c.ctype == 1) && c.channelID == rch.id)).map mkUser := by
  rw [assignClients_map]
  have hinit : initialMap channels rch.id = some [] := by
    simp only [initialMap]
    rw [if_pos]
    rw [List.any_eq_true]
    exact ⟨rch, hrch, by simp⟩
  rw [hinit]
  simp

/-- C9: for every state GetState produces from a channel list with unique
ids, the aggregate TotalUsers equals the sum of the per-channel user-list
lengths plus the number of counted clients whose channel id resolves to no
channel (orphans), and every user rendered under a channel carries that
channel's id — so an orphan appears in no channel's list. -/
theorem total_users_partition (sn : String) (up mc : Nat)
    (channels : List RawChannel) (clients : List RawClient)
    (hnd : (channels.map (fun ch => ch.id)).Nodup) :
    ((GetState sn up mc channels clients).totalUsers =
      ((GetState sn up mc channels clients).channels.map
          (fun ch => ch.users.length)).sum
        + (clients.filter (fun c => !(c.ctype == 1)
            && !(channels.any (fun ch => ch.id == c.channelID)))).length)
    ∧ (∀ ch ∈ (GetState sn up mc channels clients).channels,
        ∀ u ∈ ch.users, u.channelID = ch.id) := by
  constructor
  · simp only [GetState, List.map_map]
    rw [assignClients_total]
    have hmap : (channels.map ((fun ch : Channel => ch.users.length) ∘
          (fun ch : RawChannel =>
            ({ id := ch.id
               name := ch.channelName
               parentID := ch.parentID
               order := ch.channelOrder
               users := ((assignClients clients (initialMap channels) 0).1 ch.id).getD [] } : Channel)))).sum
        = (channels.map (fun rch => clients.countP
            (fun c => !(c.ctype == 1) && c.channelID == rch.id))).sum := by
      refine congrArg List.sum (List.map_congr_left fun rch hrch => ?_)
      simp only [Function.comp]
      rw [GetState_channel_users channels clients rch hrch, List.length_map,
        ← List.countP_eq_length_filter]
    rw [hmap]
    have hpart := countP_partition_by_channel channels clients hnd
    rw [← List.countP_eq_length_filter]
    omega
  · intro ch hch u hu
    simp only [GetState, List.mem_map] at hch
    rcases hch with ⟨rch, hrch, rfl⟩
    simp only at hu
    rw [GetState_channel_users channels clients rch hrch] at hu
    rcases List.mem_map.mp hu with ⟨c, hcmem, rfl⟩
    have hpred := (List.mem_filter.mp hcmem).2
    have hcid : c.channelID = rch.id := by
      have hsplit := (Bool.and_eq_true _ _).mp hpred
      exact beq_iff_eq.mp hsplit.2
    simpa [mkUser] using hcid

/-- C10: ServerQuery clients (Type == 1) are excluded from GetState
entirely — removing them from the client list beforehand changes nothing,
and prepending one changes nothing: they join no channel's user list and are
not counted in TotalUsers. -/
theorem query_clients_excluded (sn : String) (up mc : Nat)
    (channels : List RawChannel) (clients : List RawClient) (c : RawClient) :
    (GetState sn up mc channels (clients.filter (fun x => !(x.ctype == 1)))
       = GetState sn up mc channels clients)
    ∧ (c.ctype = 1 →
        GetState sn up mc channels (c :: clients) = GetState sn up mc channels clients) := by
  constructor
  · simp only [GetState, assignClients_filter]
  · intro h
    simp only [GetState]
    rw [show assignClients (c :: clients) (initialMap channels) 0
        = assignClients clients (initialMap channels) 0 from by simp [assignClients, h]]

/-- Witness for `query_clients_excluded` at a concrete input. -/
theorem query_clients_excluded_witness :
    GetState "s" 0 0 [] [{ ctype := 1 }] = GetState "s" 0 0 [] [] :=
  (query_clients_excluded "s" 0 0 [] [] { ctype := 1 }).2 rfl

/-- Witness for `total_users_partition` at a concrete input: two channels,
one assigned client, one orphan (2 = 1 + 1). -/
theorem total_users_partition_witness :
    (GetState "srv" 0 32 [{ id := 1 }, { id := 2 }]
        [{ id := 10, channelID := 1 }, { id := 11, channelID := 9 }]).totalUsers =
      ((GetState "srv" 0 32 [{ id := 1 }, { id := 2 }]
          [{ id := 10, channelID := 1 }, { id := 11, channelID := 9 }]).channels.map
        (fun ch => ch.users.length)).sum
        + (([{ id := 10, channelID := 1 }, { id := 11, channelID := 9 }] : List RawClient).filter
            (fun c => !(c.ctype == 1)
              && !(([{ id := 1 }, { id := 2 }] : List RawChannel).any
                    (fun ch => ch.id == c.channelID)))).length :=
  (total_users_partition "srv" 0 32 [{ id := 1 }, { id := 2 }]
      [{ id := 10, channelID := 1 }, { id := 11, channelID := 9 }] (by decide)).1

end TsDiscord
